import Mathlib

/-!
Verification of the Runs Test Above/Below the Median engine (`src/script.py`).

Samples are embedded as lists of rationals (every Python float is a rational,
so `ℚ` covers the concrete value space exactly); binary symbols are naturals
in {0, 1}, as in the Python source which uses the integers 0 and 1.  The only
inherently real-valued operation, `math.sqrt`, is embedded as `Real.sqrt`, so
the z-statistic pipeline lives in `ℝ`.  The one place the Python runtime can
raise inside the statistical core — the division `(2*n0*n1)/n` with `n = 0` —
is embedded with `Except`.
-/

/-- Exceptions relevant to the statistical core.  `zeroDivisionError` models
Python's built-in `ZeroDivisionError`, raised by `/` on a zero divisor.
`invalidInputError` models the `InvalidInputError` named by the specification's
error taxonomy; no class of that name occurs anywhere in `src/script.py`. -/
inductive PyError where
  | zeroDivisionError : PyError
  | invalidInputError : PyError
deriving DecidableEq

namespace SequenceGenerator

/-- `SequenceGenerator.THRESHOLD = 0.5` from the source. -/
def THRESHOLD : ℚ := 0.5

/-- `SequenceGenerator.generate`: the list comprehension
`[0 if value < THRESHOLD else 1 for value in data]`. -/
def generate (data : List ℚ) : List ℕ :=
  data.map (fun value => if value < THRESHOLD then 0 else 1)

end SequenceGenerator

namespace RunsCounter

/-- The loop body of `RunsCounter.count`: the number of adjacent positions
`i ≥ 1` with `sequence[i] != sequence[i-1]`. -/
def countChanges : List ℕ → ℕ
  | a :: b :: rest => (if b ≠ a then 1 else 0) + countChanges (b :: rest)
  | _ => 0

/-- `RunsCounter.count`: returns 0 for an empty sequence, otherwise starts
`runs = 1` and adds 1 at every adjacent change. -/
def count (sequence : List ℕ) : ℕ :=
  if sequence = [] then 0 else 1 + countChanges sequence

/-- `RunsCounter.count_values`: `(sequence.count(0), sequence.count(1))`. -/
def count_values (sequence : List ℕ) : ℕ × ℕ :=
  (sequence.count 0, sequence.count 1)

end RunsCounter

namespace StatisticsCalculator

/-- `StatisticsCalculator.calculate_expected_runs`: the Python body
`(2 * n0 * n1) / n + 0.5`.  Python's true division raises
`ZeroDivisionError` when `n = 0`, which the `Except` layer records. -/
def calculate_expected_runs (n0 n1 n : ℕ) : Except PyError ℚ :=
  if n = 0 then .error .zeroDivisionError
  else .ok ((2 * (n0 : ℚ) * (n1 : ℚ)) / (n : ℚ) + 0.5)

/-- `StatisticsCalculator.calculate_variance`: returns 0 when `n <= 1`;
otherwise computes the integer numerator `2*n0*n1*(2*n0*n1 - n)` and
denominator `n*n*(n-1)` and returns `numerator / denominator` unless the
denominator is 0, in which case it returns 0. -/
def calculate_variance (n0 n1 n : ℕ) : ℚ :=
  if n ≤ 1 then 0
  else
    let numerator : ℤ := 2 * (n0 : ℤ) * (n1 : ℤ) * (2 * (n0 : ℤ) * (n1 : ℤ) - (n : ℤ))
    let denominator : ℤ := (n : ℤ) * (n : ℤ) * ((n : ℤ) - 1)
    if denominator ≠ 0 then (numerator : ℚ) / (denominator : ℚ) else 0

/-- `StatisticsCalculator.calculate_z_statistic`: returns 0 when
`variance <= 0`; otherwise `(c0 - mu_c0) / math.sqrt(variance)`. -/
noncomputable def calculate_z_statistic (c0 : ℕ) (mu_c0 : ℚ) (variance : ℚ) : ℝ :=
  if variance ≤ 0 then 0
  else
    let sigma_c0 : ℝ := Real.sqrt (variance : ℝ)
    ((c0 : ℝ) - (mu_c0 : ℝ)) / sigma_c0

end StatisticsCalculator

namespace CriticalValueProvider

/-- `CriticalValueProvider.Z_TABLE`, the literal dict
`{0.01: 2.576, 0.05: 1.96, 0.10: 1.645}` as an association list. -/
def Z_TABLE : List (ℚ × ℚ) := [(0.01, 2.576), (0.05, 1.96), (0.10, 1.645)]

/-- `CriticalValueProvider.DEFAULT_ALPHA = 0.05`. -/
def DEFAULT_ALPHA : ℚ := 0.05

/-- `CriticalValueProvider.get_critical_value`: the dict access
`Z_TABLE.get(alpha, Z_TABLE[DEFAULT_ALPHA])`.  (`Z_TABLE[DEFAULT_ALPHA]`
always succeeds since 0.05 is a key; the `getD 0` fallback is dead.) -/
def get_critical_value (alpha : ℚ) : ℚ :=
  (Z_TABLE.lookup alpha).getD ((Z_TABLE.lookup DEFAULT_ALPHA).getD 0)

end CriticalValueProvider

namespace HypothesisValidator

/-- `HypothesisValidator.validate`: `abs(z0) <= z_critical`. -/
def validate (z0 z_critical : ℝ) : Prop :=
  |z0| ≤ z_critical

end HypothesisValidator

/-- `RunsTestResult`: the immutable record assembled by the orchestrator. -/
structure RunsTestResult where
  sequence : List ℕ
  c0 : ℕ
  n0 : ℕ
  n1 : ℕ
  n : ℕ
  mu_c0 : ℚ
  variance : ℚ
  sigma_c0 : ℝ
  z0 : ℝ
  z_critical : ℚ
  is_independent : Prop
  alpha : ℚ
  confidence : ℚ

namespace RunsTestService

/-- `RunsTestService.execute`, line by line: generate the sequence, count runs
and values, take `n = len(data)`, then compute the statistics (the call to
`calculate_expected_runs` is the one fallible step — Python propagates its
`ZeroDivisionError`), the critical value, the verdict, and the result record.
There is no non-emptiness guard anywhere in this function. -/
noncomputable def execute (data : List ℚ) (alpha : ℚ) : Except PyError RunsTestResult :=
  let sequence := SequenceGenerator.generate data
  let c0 := RunsCounter.count sequence
  let n0 := (RunsCounter.count_values sequence).1
  let n1 := (RunsCounter.count_values sequence).2
  let n := data.length
  match StatisticsCalculator.calculate_expected_runs n0 n1 n with
  | .error e => .error e
  | .ok mu_c0 =>
    let variance := StatisticsCalculator.calculate_variance n0 n1 n
    let sigma_c0 : ℝ := if 0 < variance then Real.sqrt (variance : ℝ) else 0
    let z0 := StatisticsCalculator.calculate_z_statistic c0 mu_c0 variance
    let z_critical := CriticalValueProvider.get_critical_value alpha
    .ok
      { sequence := sequence
        c0 := c0
        n0 := n0
        n1 := n1
        n := n
        mu_c0 := mu_c0
        variance := variance
        sigma_c0 := sigma_c0
        z0 := z0
        z_critical := z_critical
        is_independent := HypothesisValidator.validate z0 ((z_critical : ℚ) : ℝ)
        alpha := alpha
        confidence := (1 - alpha) * 100 }

end RunsTestService

/-! ### Helper lemmas -/

/-- The dict access in `get_critical_value` is the three-way key comparison
with fallback to the 0.05 entry. -/
theorem get_critical_value_eq (alpha : ℚ) :
    CriticalValueProvider.get_critical_value alpha =
      if alpha = 0.01 then 2.576
      else if alpha = 0.05 then 1.96
      else if alpha = 0.10 then 1.645
      else 1.96 := by
  have d1 : (((1:ℚ)/20) == ((1:ℚ)/100)) = false := beq_eq_false_iff_ne.mpr (by norm_num)
  have c1 : (((1:ℚ)/100) == ((1:ℚ)/100)) = true := beq_iff_eq.mpr rfl
  have e1 : (((1:ℚ)/10) == ((1:ℚ)/100)) = false := beq_eq_false_iff_ne.mpr (by norm_num)
  have e5 : (((1:ℚ)/10) == ((1:ℚ)/20)) = false := beq_eq_false_iff_ne.mpr (by norm_num)
  have e10 : (((1:ℚ)/10) == ((1:ℚ)/10)) = true := beq_iff_eq.mpr rfl
  have d5 : (((1:ℚ)/20) == ((1:ℚ)/20)) = true := beq_iff_eq.mpr rfl
  by_cases h1 : alpha = 0.01
  · subst h1
    norm_num [CriticalValueProvider.get_critical_value, CriticalValueProvider.Z_TABLE,
      CriticalValueProvider.DEFAULT_ALPHA, List.lookup, c1, d1, d5]
  · by_cases h5 : alpha = 0.05
    · subst h5
      norm_num [CriticalValueProvider.get_critical_value, CriticalValueProvider.Z_TABLE,
        CriticalValueProvider.DEFAULT_ALPHA, List.lookup, d1, d5]
    · by_cases h10 : alpha = 0.10
      · subst h10
        norm_num [CriticalValueProvider.get_critical_value, CriticalValueProvider.Z_TABLE,
          CriticalValueProvider.DEFAULT_ALPHA, List.lookup, e1, e5, e10, d1, d5]
      · have b1 : (alpha == (0.01 : ℚ)) = false := beq_eq_false_iff_ne.mpr h1
        have b5 : (alpha == (0.05 : ℚ)) = false := beq_eq_false_iff_ne.mpr h5
        have b10 : (alpha == (0.10 : ℚ)) = false := beq_eq_false_iff_ne.mpr h10
        have f1 : ((0.05 : ℚ) == (0.01 : ℚ)) = false := beq_eq_false_iff_ne.mpr (by norm_num)
        have f5 : ((0.05 : ℚ) == (0.05 : ℚ)) = true := beq_iff_eq.mpr rfl
        simp only [CriticalValueProvider.get_critical_value, CriticalValueProvider.Z_TABLE,
          CriticalValueProvider.DEFAULT_ALPHA, List.lookup, b1, b5, b10, f1, f5,
          if_neg h1, if_neg h5, if_neg h10]
        rfl

/-- Every critical value the provider can return is non-negative. -/
theorem get_critical_value_nonneg (alpha : ℚ) :
    0 ≤ CriticalValueProvider.get_critical_value alpha := by
  rw [get_critical_value_eq]
  split
  · norm_num
  · split
    · norm_num
    · split <;> norm_num

/-- The change count of a non-empty sequence is at most the length of its tail. -/
theorem countChanges_le (a : ℕ) (xs : List ℕ) :
    RunsCounter.countChanges (a :: xs) ≤ xs.length := by
  induction xs generalizing a with
  | nil => simp [RunsCounter.countChanges]
  | cons b ys ih =>
    have hb := ih b
    simp only [RunsCounter.countChanges, List.length_cons]
    split <;> omega

/-- On a sequence of 0s and 1s, the occurrence counts of 0 and of 1 add up to
the length. -/
theorem count_zero_add_count_one (s : List ℕ) (hb : ∀ x ∈ s, x = 0 ∨ x = 1) :
    s.count 0 + s.count 1 = s.length := by
  induction s with
  | nil => simp
  | cons a t ih =>
    have ha := hb a (List.mem_cons_self a t)
    have ih' := ih fun y hy => hb y (List.mem_cons_of_mem a hy)
    rcases ha with ha | ha <;> subst ha <;>
      simp [List.count_cons, ih'] <;> omega

/-- When `n0 * n1 = 0` the variance numerator vanishes, so the variance is 0
in every branch of `calculate_variance`. -/
theorem calculate_variance_eq_zero (n0 n1 n : ℕ) (h : n0 * n1 = 0) :
    StatisticsCalculator.calculate_variance n0 n1 n = 0 := by
  have h2 : (n0 : ℤ) * (n1 : ℤ) = 0 := by exact_mod_cast h
  have hnum : 2 * (n0 : ℤ) * (n1 : ℤ) * (2 * (n0 : ℤ) * (n1 : ℤ) - (n : ℤ)) = 0 := by
    rw [mul_assoc 2 (n0 : ℤ) (n1 : ℤ), h2, mul_zero, zero_mul]
  unfold StatisticsCalculator.calculate_variance
  split
  · rfl
  · simp [hnum]

/-- For a non-empty sample the orchestrator succeeds, and every field of the
returned record is the value computed by the corresponding component. -/
theorem execute_ok_spec (data : List ℚ) (alpha : ℚ) (h : data ≠ []) :
    ∃ r : RunsTestResult,
      RunsTestService.execute data alpha = Except.ok r ∧
      r.sequence = SequenceGenerator.generate data ∧
      r.c0 = RunsCounter.count (SequenceGenerator.generate data) ∧
      r.n0 = (RunsCounter.count_values (SequenceGenerator.generate data)).1 ∧
      r.n1 = (RunsCounter.count_values (SequenceGenerator.generate data)).2 ∧
      r.n = data.length ∧
      r.mu_c0 = (2 * (r.n0 : ℚ) * (r.n1 : ℚ)) / (r.n : ℚ) + 0.5 ∧
      r.variance = StatisticsCalculator.calculate_variance r.n0 r.n1 r.n ∧
      r.sigma_c0 = (if 0 < r.variance then Real.sqrt ((r.variance : ℚ) : ℝ) else 0) ∧
      r.z0 = StatisticsCalculator.calculate_z_statistic r.c0 r.mu_c0 r.variance ∧
      r.z_critical = CriticalValueProvider.get_critical_value alpha ∧
      (r.is_independent ↔ |r.z0| ≤ ((r.z_critical : ℚ) : ℝ)) ∧
      r.alpha = alpha ∧
      r.confidence = (1 - alpha) * 100 := by
  have hn : data.length ≠ 0 := fun hh => h (List.length_eq_zero.mp hh)
  unfold RunsTestService.execute
  simp only [StatisticsCalculator.calculate_expected_runs, if_neg hn]
  exact ⟨_, rfl, rfl, rfl, rfl, rfl, rfl, rfl, rfl, rfl, rfl, rfl, Iff.rfl, rfl, rfl⟩

/-! ### Claims -/

/-- Claim C1 (code_bug evidence): for the empty sample, `execute` fails with
Python's `ZeroDivisionError` — raised inside
`calculate_expected_runs` by the division `(2*n0*n1)/n` with `n = 0` — and
not with the `InvalidInputError` the specification requires; no non-emptiness
guard exists in the orchestrator. No Test Result is produced. -/
theorem C1_empty_sample_zero_division (alpha : ℚ) :
    RunsTestService.execute [] alpha = Except.error PyError.zeroDivisionError ∧
    RunsTestService.execute [] alpha ≠ Except.error PyError.invalidInputError := by
  refine ⟨rfl, ?_⟩
  intro hcontra
  rw [show RunsTestService.execute [] alpha = Except.error PyError.zeroDivisionError
    from rfl] at hcontra
  simp at hcontra

/-- Claim C2: `get_critical_value` maps 0.01 to 2.576, 0.05 to 1.96 and 0.10
to 1.645, and every other significance level falls back to the 0.05 entry
1.96. -/
theorem C2_critical_value_table :
    CriticalValueProvider.get_critical_value 0.01 = 2.576 ∧
    CriticalValueProvider.get_critical_value 0.05 = 1.96 ∧
    CriticalValueProvider.get_critical_value 0.10 = 1.645 ∧
    ∀ alpha : ℚ, alpha ≠ 0.01 → alpha ≠ 0.05 → alpha ≠ 0.10 →
      CriticalValueProvider.get_critical_value alpha = 1.96 := by
  refine ⟨?_, ?_, ?_, ?_⟩
  · rw [get_critical_value_eq]; norm_num
  · rw [get_critical_value_eq]; norm_num
  · rw [get_critical_value_eq]; norm_num
  · intro alpha h1 h5 h10
    rw [get_critical_value_eq, if_neg h1, if_neg h5, if_neg h10]

/-- Witness for C2: the unlisted level 0.03 falls back to 1.96. -/
theorem C2_witness : CriticalValueProvider.get_critical_value 0.03 = 1.96 :=
  C2_critical_value_table.2.2.2 0.03 (by norm_num) (by norm_num) (by norm_num)

/-- Claim C3: `calculate_z_statistic` returns 0 whenever the variance is at
most 0, and otherwise returns `(c0 - mu_c0) / sqrt(variance)`; when the
variance is positive the divisor `sqrt(variance)` is non-zero, so the
division-by-zero case is unreachable. -/
theorem C3_z_statistic_policy (c0 : ℕ) (mu_c0 variance : ℚ) :
    (variance ≤ 0 → StatisticsCalculator.calculate_z_statistic c0 mu_c0 variance = 0) ∧
    (0 < variance →
      StatisticsCalculator.calculate_z_statistic c0 mu_c0 variance =
        ((c0 : ℝ) - ((mu_c0 : ℚ) : ℝ)) / Real.sqrt ((variance : ℚ) : ℝ) ∧
      Real.sqrt ((variance : ℚ) : ℝ) ≠ 0) := by
  constructor
  · intro hv
    unfold StatisticsCalculator.calculate_z_statistic
    rw [if_pos hv]
  · intro hv
    have hv' : ¬ variance ≤ 0 := not_le.mpr hv
    have hvr : (0 : ℝ) < ((variance : ℚ) : ℝ) := by exact_mod_cast hv
    refine ⟨?_, ne_of_gt (Real.sqrt_pos.mpr hvr)⟩
    unfold StatisticsCalculator.calculate_z_statistic
    rw [if_neg hv']

/-- Witness for C3: a non-positive variance yields 0; a positive variance
yields the quotient by the square root. -/
theorem C3_witness :
    StatisticsCalculator.calculate_z_statistic 3 2 (-1) = 0 ∧
    StatisticsCalculator.calculate_z_statistic 3 2 1 =
      (((3 : ℕ) : ℝ) - (((2 : ℚ)) : ℝ)) / Real.sqrt (((1 : ℚ)) : ℝ) :=
  ⟨(C3_z_statistic_policy 3 2 (-1)).1 (by norm_num),
   ((C3_z_statistic_policy 3 2 1).2 (by norm_num)).1⟩

/-- Claim C4: `calculate_variance` returns 0 for every `n ≤ 1` regardless of
`n0` and `n1`, and for every `n > 1` returns
`2*n0*n1*(2*n0*n1 - n) / (n^2*(n-1))`; at `n0 = 5, n1 = 5, n = 10` the value
is 2000/900. -/
theorem C4_variance_formula (n0 n1 n : ℕ) :
    (n ≤ 1 → StatisticsCalculator.calculate_variance n0 n1 n = 0) ∧
    (1 < n → StatisticsCalculator.calculate_variance n0 n1 n =
      (2 * (n0 : ℚ) * (n1 : ℚ) * (2 * (n0 : ℚ) * (n1 : ℚ) - (n : ℚ))) /
        ((n : ℚ) * (n : ℚ) * ((n : ℚ) - 1))) ∧
    StatisticsCalculator.calculate_variance 5 5 10 = 2000 / 900 := by
  refine ⟨?_, ?_, by norm_num [StatisticsCalculator.calculate_variance]⟩
  · intro hn
    unfold StatisticsCalculator.calculate_variance
    rw [if_pos hn]
  · intro hn
    have hn' : ¬ n ≤ 1 := not_le.mpr hn
    have h1 : (0 : ℤ) < (n : ℤ) := by exact_mod_cast Nat.lt_of_lt_of_le Nat.zero_lt_one hn.le
    have h2 : (0 : ℤ) < (n : ℤ) - 1 := by
      have : (1 : ℤ) < (n : ℤ) := by exact_mod_cast hn
      linarith
    have hden : ((n : ℤ) * (n : ℤ) * ((n : ℤ) - 1)) ≠ 0 :=
      ne_of_gt (mul_pos (mul_pos h1 h1) h2)
    unfold StatisticsCalculator.calculate_variance
    rw [if_neg hn']
    simp only [ne_eq, hden, not_false_eq_true, if_true]
    push_cast
    ring

/-- Witness for C4: at `n = 1` the variance is 0; at `n0 = n1 = 5`, `n = 10`
it is 2000/900. -/
theorem C4_witness :
    StatisticsCalculator.calculate_variance 5 5 1 = 0 ∧
    StatisticsCalculator.calculate_variance 5 5 10 = 2000 / 900 :=
  ⟨(C4_variance_formula 5 5 1).1 (by norm_num), (C4_variance_formula 5 5 10).2.2⟩

/-- Claim C6: the encoder produces a same-length sequence, each output symbol
is 0 exactly when the corresponding input is strictly below the 0.5 threshold
and 1 otherwise, and a value equal to 0.5 is encoded as 1. -/
theorem C6_generate_encoding (data : List ℚ) :
    (SequenceGenerator.generate data).length = data.length ∧
    (∀ (i : ℕ) (hi : i < data.length) (hi' : i < (SequenceGenerator.generate data).length),
      (SequenceGenerator.generate data).get ⟨i, hi'⟩ =
        if data.get ⟨i, hi⟩ < 0.5 then 0 else 1) ∧
    SequenceGenerator.generate [0.5] = [1] := by
  refine ⟨?_, ?_, ?_⟩
  · simp [SequenceGenerator.generate]
  · intro i hi hi'
    simp [SequenceGenerator.generate, SequenceGenerator.THRESHOLD]
  · norm_num [SequenceGenerator.generate, SequenceGenerator.THRESHOLD]

/-- Witness for C6: on the sample `[2/5, 1/2]` the encoder keeps the length,
maps the entry `1/2` (equal to the threshold) to 1, and `[0.5]` encodes to
`[1]`. -/
theorem C6_witness :
    (SequenceGenerator.generate [2/5, 1/2]).length = 2 ∧
    (SequenceGenerator.generate [2/5, 1/2]).get
      ⟨1, by simp [SequenceGenerator.generate]⟩ = 1 ∧
    SequenceGenerator.generate [0.5] = [1] := by
  obtain ⟨h1, h2, -⟩ := C6_generate_encoding [2/5, 1/2]
  refine ⟨by simpa using h1, ?_, (C6_generate_encoding [0.5]).2.2⟩
  have h := h2 1 (by norm_num) (by simp [SequenceGenerator.generate])
  rw [h]
  norm_num

/-- Claim C7: on every binary sequence the two symbol counts add up to the
length, the run count lies between 1 and the length when the sequence is
non-empty, and the run count is 0 exactly when the sequence is empty. -/
theorem C7_run_count_invariants (s : List ℕ) (hb : ∀ x ∈ s, x = 0 ∨ x = 1) :
    (RunsCounter.count_values s).1 + (RunsCounter.count_values s).2 = s.length ∧
    (1 ≤ s.length → 1 ≤ RunsCounter.count s ∧ RunsCounter.count s ≤ s.length) ∧
    (RunsCounter.count s = 0 ↔ s.length = 0) := by
  refine ⟨count_zero_add_count_one s hb, ?_, ?_⟩
  · intro hlen
    cases s with
    | nil => simp at hlen
    | cons a xs =>
      have hc := countChanges_le a xs
      constructor
      · simp [RunsCounter.count]
      · simp only [RunsCounter.count, List.length_cons, if_neg (List.cons_ne_nil a xs)]
        omega
  · cases s with
    | nil => simp [RunsCounter.count]
    | cons a xs => simp [RunsCounter.count]

/-- Witness for C7: on `[0, 1, 1]` the counts are `n0 = 1`, `n1 = 2` with
`n0 + n1 = 3`, and there are 2 runs. -/
theorem C7_witness :
    (RunsCounter.count_values [0, 1, 1]).1 + (RunsCounter.count_values [0, 1, 1]).2 = 3 ∧
    RunsCounter.count [0, 1, 1] = 2 := by
  obtain ⟨h1, -, -⟩ := C7_run_count_invariants [0, 1, 1] (by decide)
  exact ⟨by simpa using h1, by decide⟩

/-- Claim C8: `validate` holds exactly when `|Z0| ≤ Z_critical`; in
particular the boundary `|Z0| = Z_critical` is accepted. -/
theorem C8_validate_iff (z0 z_critical : ℝ) :
    (HypothesisValidator.validate z0 z_critical ↔ |z0| ≤ z_critical) ∧
    (|z0| = z_critical → HypothesisValidator.validate z0 z_critical) :=
  ⟨Iff.rfl, fun h => le_of_eq h⟩

/-- Witness for C8: `Z0 = -1.96` against `Z_critical = 1.96` sits on the
boundary and is accepted. -/
theorem C8_witness : HypothesisValidator.validate (-(1.96 : ℝ)) 1.96 :=
  (C8_validate_iff (-(1.96 : ℝ)) 1.96).2
    (by rw [abs_neg]; exact abs_of_nonneg (by norm_num))

/-- Claim C9: whenever `n0 + n1 = n`, the variance is non-negative, so both
square roots taken on it (inside `calculate_z_statistic` and in the
orchestrator's `sigma_c0`) receive a non-negative argument. -/
theorem C9_variance_nonneg (n0 n1 n : ℕ) (h : n0 + n1 = n) :
    0 ≤ StatisticsCalculator.calculate_variance n0 n1 n ∧
    (0 : ℝ) ≤ ((StatisticsCalculator.calculate_variance n0 n1 n : ℚ) : ℝ) := by
  suffices hq : 0 ≤ StatisticsCalculator.calculate_variance n0 n1 n by
    exact ⟨hq, by exact_mod_cast hq⟩
  rcases Nat.eq_zero_or_pos (n0 * n1) with hz | hpos
  · rw [calculate_variance_eq_zero n0 n1 n hz]
  · obtain ⟨h0, h1'⟩ := Nat.mul_ne_zero_iff.mp (Nat.pos_iff_ne_zero.mp hpos)
    have ha : 1 ≤ (n0 : ℤ) := by exact_mod_cast Nat.one_le_iff_ne_zero.mpr h0
    have hb : 1 ≤ (n1 : ℤ) := by exact_mod_cast Nat.one_le_iff_ne_zero.mpr h1'
    have hsum : (n0 : ℤ) + (n1 : ℤ) = (n : ℤ) := by exact_mod_cast h
    unfold StatisticsCalculator.calculate_variance
    split
    · exact le_refl 0
    · dsimp only
      split
      · have hkey : (n : ℤ) ≤ 2 * (n0 : ℤ) * (n1 : ℤ) := by
          nlinarith [mul_nonneg (sub_nonneg.mpr ha) (sub_nonneg.mpr hb)]
        have hnum : (0 : ℤ) ≤ 2 * (n0 : ℤ) * (n1 : ℤ) * (2 * (n0 : ℤ) * (n1 : ℤ) - (n : ℤ)) :=
          mul_nonneg (by positivity) (sub_nonneg.mpr hkey)
        have hden : (0 : ℤ) ≤ (n : ℤ) * (n : ℤ) * ((n : ℤ) - 1) := by
          rename_i hn _
          have : (1 : ℤ) < (n : ℤ) := by exact_mod_cast Nat.not_le.mp hn
          nlinarith
        exact div_nonneg (by exact_mod_cast hnum) (by exact_mod_cast hden)
      · exact le_refl 0

/-- Witness for C9: at `n0 = 3`, `n1 = 2`, `n = 5` the variance is
non-negative. -/
theorem C9_witness :
    0 ≤ StatisticsCalculator.calculate_variance 3 2 5 ∧
    (0 : ℝ) ≤ ((StatisticsCalculator.calculate_variance 3 2 5 : ℚ) : ℝ) :=
  C9_variance_nonneg 3 2 5 (by norm_num)

/-- Claim C10: on any non-empty constant sample (all values below the
threshold, or all at or above it) the orchestrator succeeds with variance 0,
`Z0 = 0`, and the independence verdict true. -/
theorem C10_constant_sample (data : List ℚ) (alpha : ℚ) (hne : data ≠ [])
    (hconst : (∀ v ∈ data, v < 0.5) ∨ (∀ v ∈ data, 0.5 ≤ v)) :
    ∃ r : RunsTestResult,
      RunsTestService.execute data alpha = Except.ok r ∧
      r.variance = 0 ∧ r.z0 = 0 ∧ r.is_independent := by
  obtain ⟨r, hex, hseq, hc0, hn0, hn1, hn, hmu, hvar, hsig, hz0, hzc, hind, hal, hcf⟩ :=
    execute_ok_spec data alpha hne
  have hmul : r.n0 * r.n1 = 0 := by
    rcases hconst with hlt | hge
    · have hcount : (SequenceGenerator.generate data).count 1 = 0 := by
        rw [List.count_eq_zero]
        intro hmem
        simp only [SequenceGenerator.generate, List.mem_map] at hmem
        obtain ⟨v, hv, hveq⟩ := hmem
        rw [if_pos (show v < SequenceGenerator.THRESHOLD from hlt v hv)] at hveq
        exact absurd hveq (by norm_num)
      rw [hn1, RunsCounter.count_values]
      simp [hcount]
    · have hcount : (SequenceGenerator.generate data).count 0 = 0 := by
        rw [List.count_eq_zero]
        intro hmem
        simp only [SequenceGenerator.generate, List.mem_map] at hmem
        obtain ⟨v, hv, hveq⟩ := hmem
        rw [if_neg (show ¬ v < SequenceGenerator.THRESHOLD from not_lt.mpr (hge v hv))]
          at hveq
        exact absurd hveq (by norm_num)
      rw [hn0, RunsCounter.count_values]
      simp [hcount]
  have hv0 : r.variance = 0 := by
    rw [hvar]
    exact calculate_variance_eq_zero _ _ _ hmul
  have hz : r.z0 = 0 := by
    rw [hz0, hv0]
    unfold StatisticsCalculator.calculate_z_statistic
    rw [if_pos le_rfl]
  refine ⟨r, hex, hv0, hz, ?_⟩
  apply hind.mpr
  rw [hz, abs_zero, hzc]
  exact_mod_cast get_critical_value_nonneg alpha

/-- Witness for C10: the constant sample `[1, 1]` (both values at or above
the threshold) yields variance 0, `Z0 = 0`, and an accepting verdict. -/
theorem C10_witness :
    ∃ r : RunsTestResult,
      RunsTestService.execute [1, 1] 0.05 = Except.ok r ∧
      r.variance = 0 ∧ r.z0 = 0 ∧ r.is_independent :=
  C10_constant_sample [1, 1] 0.05 (by simp)
    (Or.inr (fun v hv => by simp at hv; subst hv; norm_num))

/-- Claim C5: on the sample `[0.1, 0.9, 0.2, 0.8, 0.3]` with `alpha = 0.05`
the orchestrator produces the binary sequence `[0,1,0,1,0]`, counts `c0 = 5`,
`n0 = 3`, `n1 = 2`, `n = 5`, expected runs 2.9, variance 0.84, critical value
1.96, and rejects independence because `|Z0| > 1.96`. -/
theorem C5_end_to_end :
    ∃ r : RunsTestResult,
      RunsTestService.execute [0.1, 0.9, 0.2, 0.8, 0.3] 0.05 = Except.ok r ∧
      r.sequence = [0, 1, 0, 1, 0] ∧ r.c0 = 5 ∧ r.n0 = 3 ∧ r.n1 = 2 ∧ r.n = 5 ∧
      r.mu_c0 = 2.9 ∧ r.variance = 0.84 ∧ r.z_critical = 1.96 ∧
      ¬ r.is_independent := by
  obtain ⟨r, hex, hseq, hc0, hn0, hn1, hn, hmu, hvar, hsig, hz0, hzc, hind, hal, hcf⟩ :=
    execute_ok_spec [0.1, 0.9, 0.2, 0.8, 0.3] 0.05 (by simp)
  have hgen : SequenceGenerator.generate [0.1, 0.9, 0.2, 0.8, 0.3] = [0, 1, 0, 1, 0] := by
    norm_num [SequenceGenerator.generate, SequenceGenerator.THRESHOLD]
  have hseq' : r.sequence = [0, 1, 0, 1, 0] := by rw [hseq, hgen]
  have hc0' : r.c0 = 5 := by rw [hc0, hgen]; decide
  have hn0' : r.n0 = 3 := by rw [hn0, hgen]; decide
  have hn1' : r.n1 = 2 := by rw [hn1, hgen]; decide
  have hn' : r.n = 5 := by rw [hn]; rfl
  have hmu' : r.mu_c0 = 2.9 := by rw [hmu, hn0', hn1', hn']; norm_num
  have hvar' : r.variance = 0.84 := by
    rw [hvar, hn0', hn1', hn']
    norm_num [StatisticsCalculator.calculate_variance]
  have hzc' : r.z_critical = 1.96 := by rw [hzc, get_critical_value_eq]; norm_num
  refine ⟨r, hex, hseq', hc0', hn0', hn1', hn', hmu', hvar', hzc', ?_⟩
  rw [hind, hzc', hz0, hc0', hmu', hvar']
  have hzval : StatisticsCalculator.calculate_z_statistic 5 (2.9 : ℚ) (0.84 : ℚ) =
      ((21 : ℝ) / 10) / Real.sqrt ((21 : ℝ) / 25) := by
    unfold StatisticsCalculator.calculate_z_statistic
    rw [if_neg (by norm_num)]
    rw [show (((0.84 : ℚ) : ℚ) : ℝ) = (21 : ℝ) / 25 by norm_num]
    norm_num
  rw [hzval]
  have hs_pos : 0 < Real.sqrt ((21 : ℝ) / 25) := Real.sqrt_pos.mpr (by norm_num)
  have hs_lt : Real.sqrt ((21 : ℝ) / 25) < 15 / 14 :=
    (Real.sqrt_lt' (by norm_num)).mpr (by norm_num)
  have hz_gt : ((1.96 : ℚ) : ℝ) < ((21 : ℝ) / 10) / Real.sqrt ((21 : ℝ) / 25) := by
    rw [lt_div_iff₀ hs_pos]
    calc ((1.96 : ℚ) : ℝ) * Real.sqrt ((21 : ℝ) / 25)
        < ((1.96 : ℚ) : ℝ) * (15 / 14) := by
          exact mul_lt_mul_of_pos_left hs_lt (by norm_num)
      _ ≤ 21 / 10 := by norm_num
  intro hcontra
  have habs := le_trans (le_abs_self _) hcontra
  linarith
